import Mathlib

set_option maxRecDepth 8000

/-!
# Verification of the Viral Arcade game component

Shallow embedding of `src/arcade/src/ViralArcade.jsx` (a single React
component) and proofs about it.

Modelling conventions:

* JavaScript numbers are modelled by `ℚ` (the quantities of interest are
  produced by `+ - * /`, `min`, `max`, `Math.floor`, `Math.round` on decimal
  literals, which `ℚ` models exactly); the integral score and best score are
  modelled by `ℤ`.
* `Math.random()` draws are inputs: every `rand(a, b)` call site receives its
  own uniform draw `u` (intended in `[0,1)`) and computes `a + u * (b - a)`
  exactly as the source `rand` does.  The initial `spin` of an orb is the
  only exception: `rand(0, 2π)` has an irrational upper bound, so the draw
  field `uSpin` directly carries the drawn value (uniform in `[0, 2π)`).
* `Math.hypot` produces irrational square roots, so the environment carries
  an oracle function `hypot`; faithful environments set it to the Euclidean
  norm of its two arguments.  No theorem below depends on its values.
* React state-update semantics: inside one event handler (one `tick` frame),
  reads of `useState` variables see the render snapshot `S0`, while queued
  functional updates (`setX (fun v => ...)`) compose on an accumulator `acc`
  and absolute updates (`setX c`) overwrite it.  Refs (`orbsRef`, `idRef`,
  `lastTs`) mutate in place and are threaded through the accumulator.
  Functions below therefore take both a snapshot state `S0` and an
  accumulator state `acc`; at the start of a frame the two coincide.
* The `toast` helper displays a transient notice and synchronously runs its
  optional callback; the transient notice text itself is presentation-only
  and is modelled only where a claim mentions it (the share path).
* Badge strings `"🏅 ${m}"` are in bijection with their milestone value `m`,
  so the badge list is modelled as a `List ℤ` of milestone values.
-/

/-- Orb kinds: `"good" | "bad" | "power"` in the source. -/
inductive Kind where
  | good
  | bad
  | power
deriving DecidableEq, Repr

/-- One moving entity (source: the `orb` object literal in `spawnOrb`).
`pos`/`vel` records are flattened into `posX posY velX velY`. -/
structure Orb where
  id : ℕ
  kind : Kind
  posX : ℚ
  posY : ℚ
  velX : ℚ
  velY : ℚ
  radius : ℚ
  bornAt : ℚ
  ttl : ℚ
  spin : ℚ
deriving DecidableEq, Repr

/-- The component state: every `useState`/`useRef` cell of `ViralArcade`
that carries game semantics (`flash` and `seed` are transient presentation
hints and are not modelled; `best` mirrors the persisted
`viral_arcade_best` entry, which `useLocalStorage` rewrites on every
change). -/
structure GameState where
  running : Bool
  paused : Bool
  score : ℤ
  best : ℤ
  combo : ℕ
  mult : ℚ
  streak : ℚ
  sound : Bool
  slowmo : ℚ
  magnet : ℚ
  x2 : ℚ
  badges : List ℤ
  playerX : ℚ
  playerY : ℚ
  radius : ℚ
  orbs : List Orb
  nextId : ℕ
  lastTs : Option ℚ
deriving DecidableEq

attribute [ext] Orb GameState

/-- Source `clamp = (v, a, b) => Math.max(a, Math.min(b, v))`. -/
def clamp (v a b : ℚ) : ℚ := max a (min b v)

/-- JavaScript `Math.round`: nearest integer, ties toward `+∞`. -/
def mathRound (q : ℚ) : ℤ := ⌊q + 1/2⌋

/-- JavaScript `Number(x.toFixed(1))` on the exact rational value. -/
def toFixed1 (q : ℚ) : ℚ := (mathRound (q * 10) : ℚ) / 10

/-- Difficulty interpolation parameter `t = Math.min(1, score / 5000)`. -/
def tScore (score : ℤ) : ℚ := min 1 ((score : ℚ) / 5000)

/-- `difficulty.spawnRate = 0.9 + t * 2.2`. -/
def spawnRate (score : ℤ) : ℚ := 0.9 + tScore score * 2.2

/-- `difficulty.speed = 70 + t * 170`. -/
def speedOf (score : ℤ) : ℚ := 70 + tScore score * 170

/-- `difficulty.badShare = 0.35 + t * 0.25`. -/
def badShare (score : ℤ) : ℚ := 0.35 + tScore score * 0.25

/-- `difficulty.powerChance = 0.08 + t * 0.05`. -/
def powerChance (score : ℤ) : ℚ := 0.08 + tScore score * 0.05

/-- The badge milestones `[200, 600, 1200, 2500, 4000, 6000]`. -/
def milestones : List ℤ := [200, 600, 1200, 2500, 4000, 6000]

/-- One iteration of the badge loop in `handleCollect`:
`if (score < m && score + 1 >= m && !badges.includes(...)) setBadges(b => [...b, ...])`.
The guard reads the snapshot (`score`, `badges`); the append is a queued
functional update on the accumulator. -/
def badgeStep (S0 : GameState) (a : GameState) (m : ℤ) : GameState :=
  if S0.score < m ∧ S0.score + 1 ≥ m ∧ ¬ m ∈ S0.badges then
    { a with badges := a.badges ++ [m] }
  else a

/-- The whole badge loop of `handleCollect`. -/
def badgeCheck (S0 a : GameState) : GameState :=
  milestones.foldl (badgeStep S0) a

/-- The good/power branches of `handleCollect` (everything before the badge
loop).  For a good orb: `setScore(s => s + inc)`, `setCombo(c => c + 1)`,
`setStreak(s => Math.min(100, s + 5))` are functional updates, while the
three combo-milestone buffs are absolute writes guarded by the snapshot
combo (`combo + 1 === 10`, `% 15`, `% 20`).  For a power orb, one extra
`Math.random()` draw `choice` selects among three absolute buff writes.
The sound cues are side effects with no state content. -/
def collectUpd (S0 acc : GameState) (o : Orb) (choice : ℚ) : GameState :=
  if o.kind = Kind.good then
    { acc with
      score := acc.score + mathRound (10 * S0.mult * (if S0.x2 > 0 then 2 else 1)),
      combo := acc.combo + 1,
      streak := min 100 (acc.streak + 5),
      x2 := if S0.combo + 1 = 10 then 4000 else acc.x2,
      slowmo := if (S0.combo + 1) % 15 = 0 then 3000 else acc.slowmo,
      magnet := if (S0.combo + 1) % 20 = 0 then 4000 else acc.magnet }
  else if o.kind = Kind.power then
    if choice < 0.34 then { acc with slowmo := 3500 }
    else if choice < 0.67 then { acc with magnet := 5000 }
    else { acc with x2 := 6000 }
  else acc

/-- Source `handleCollect(o)`: buff/score updates followed by the badge
loop. -/
def handleCollect (S0 acc : GameState) (o : Orb) (choice : ℚ) : GameState :=
  badgeCheck S0 (collectUpd S0 acc o choice)

/-- Per-spawn random draws, one field per `Math.random()` call site of
`spawnOrb`, in source order.  `uSpin` carries the drawn initial rotation
directly (see module docstring). -/
structure SpawnDraws where
  uEdge : ℚ
  uX : ℚ
  uY : ℚ
  uJx : ℚ
  uJy : ℚ
  uV1 : ℚ
  uV2 : ℚ
  uPower : ℚ
  uBad : ℚ
  uRad : ℚ
  uTtl : ℚ
  uSpin : ℚ

/-- Per-frame environment: the animation-frame timestamp `ts`,
`performance.now()` readings `now`, the arena bounding rectangle `w × h`,
the spawn-probability draw `uSpawn`, the spawn draws, the power-effect
choice draws (the k-th power orb collected in the frame uses `choice k`),
and the `Math.hypot` oracle. -/
structure Env where
  ts : ℚ
  now : ℚ
  w : ℚ
  h : ℚ
  uSpawn : ℚ
  draws : SpawnDraws
  choice : ℕ → ℚ
  hypot : ℚ → ℚ → ℚ

/-- Source `spawnOrb()`: edge placement, centre-directed jittered velocity,
hierarchical kind classification (power draw first, then bad draw), and
kind-dependent radius.  `rand(a,b)` is `a + u * (b - a)`. -/
def spawnOrb (env : Env) (s : GameState) : Orb :=
  let d := env.draws
  let edge : ℤ := ⌊0 + d.uEdge * 4⌋
  let x : ℚ := if edge = 2 then 0 else if edge = 3 then 1 else d.uX
  let y : ℚ := if edge = 0 then 0 else if edge = 1 then 1 else d.uY
  let toCx : ℚ := 1/2 - x
  let toCy : ℚ := 1/2 - y
  let len : ℚ := if env.hypot toCx toCy = 0 then 1 else env.hypot toCx toCy
  let jx : ℚ := -0.3 + d.uJx * 0.6
  let jy : ℚ := -0.3 + d.uJy * 0.6
  let sp : ℚ := speedOf s.score / max env.w env.h
  let isPower : Bool := decide (d.uPower < powerChance s.score)
  let isBad : Bool := decide (d.uBad < badShare s.score) && !isPower
  let kind : Kind := if isPower then Kind.power else if isBad then Kind.bad else Kind.good
  { id := s.nextId
    kind := kind
    posX := x
    posY := y
    velX := (toCx / len + jx) * sp * (0.6 + d.uV1 * 0.7)
    velY := (toCy / len + jy) * sp * (0.6 + d.uV2 * 0.7)
    radius := if kind = Kind.bad then 12 + d.uRad * 6
              else if kind = Kind.power then 14 + d.uRad * 6
              else 10 + d.uRad * 6
    bornAt := env.now
    ttl := 5000 + d.uTtl * 5000
    spin := d.uSpin }

/-- The per-orb body of the move loop in `tick`: base velocity scaled by
difficulty speed and `effectiveDt`, magnet attraction for non-hazards
(written here as an if-guarded additive term, matching the source's
`vx += ...` inside `if (magnet > 0 && o.kind !== "bad")`), clamping with
reflection on the clamped axis, and the spin increment. -/
def moveOrb (env : Env) (S0 : GameState) (effDt : ℚ) (o : Orb) : Orb :=
  let velScale : ℚ := speedOf S0.score / max env.w env.h
  let dx : ℚ := S0.playerX * env.w - o.posX * env.w
  let dy : ℚ := S0.playerY * env.h - o.posY * env.h
  let m : ℚ := if env.hypot dx dy = 0 then 1 else env.hypot dx dy
  let vx : ℚ := o.velX * velScale * effDt +
    (if S0.magnet > 0 ∧ o.kind ≠ Kind.bad then dx / m * 0.8 * effDt else 0)
  let vy : ℚ := o.velY * velScale * effDt +
    (if S0.magnet > 0 ∧ o.kind ≠ Kind.bad then dy / m * 0.8 * effDt else 0)
  let nx : ℚ := clamp (o.posX + vx) 0 1
  let ny : ℚ := clamp (o.posY + vy) 0 1
  { o with
    posX := nx
    posY := ny
    velX := if (nx = 0 ∨ nx = 1 ∨ ny = 0 ∨ ny = 1) ∧ (nx = 0 ∨ nx = 1) then -o.velX else o.velX
    velY := if (nx = 0 ∨ nx = 1 ∨ ny = 0 ∨ ny = 1) ∧ (ny = 0 ∨ ny = 1) then -o.velY else o.velY
    spin := o.spin + (if o.kind = Kind.bad then 0.03 else 0.02) }

/-- The move-and-expire phase of `tick`: every live orb is moved, then kept
exactly when `performance.now() - o.bornAt < o.ttl`. -/
def moveAndExpire (env : Env) (S0 : GameState) (effDt : ℚ) (orbs : List Orb) : List Orb :=
  (orbs.map (moveOrb env S0 effDt)).filter (fun o => decide (env.now - o.bornAt < o.ttl))

/-- Collision test of `tick`: squared pixel distance between centres
against `(playerRadius + orbRadius)²`. -/
def hitTest (env : Env) (S0 : GameState) (o : Orb) : Bool :=
  decide ((S0.playerX * env.w - o.posX * env.w) * (S0.playerX * env.w - o.posX * env.w) +
    (S0.playerY * env.h - o.posY * env.h) * (S0.playerY * env.h - o.posY * env.h) ≤
    (S0.radius + o.radius) * (S0.radius + o.radius))

/-- Source `endGame()` as a state update: stops the run, resets
streak/combo/multiplier, and persists `setBest(b => (score > b ? score : b))`
— a functional update on the accumulated best whose `score` is the render
snapshot value `S0.score`. -/
def endGame (S0 acc : GameState) : GameState :=
  { acc with
    running := false
    paused := false
    streak := 0
    combo := 0
    mult := 1
    best := if S0.score > acc.best then S0.score else acc.best }

/-- The collision loop of `tick` over a fixed copy of the moved orb list:
a hazard hit plays a tone, calls `endGame()` and returns from the frame at
once; a good/power hit runs `handleCollect` and filters the orb out of the
live list.  `k` counts power orbs collected so far in the frame, indexing
the power-effect choice draws. -/
def collide (env : Env) (S0 : GameState) : ℕ → List Orb → GameState → GameState
  | _, [], acc => acc
  | k, o :: rest, acc =>
    if hitTest env S0 o then
      if o.kind = Kind.bad then
        endGame S0 acc
      else
        collide env S0 (if o.kind = Kind.power then k + 1 else k) rest
          (let acc1 := handleCollect S0 acc o (env.choice k)
           { acc1 with orbs := acc1.orbs.filter (fun x => decide (x.id ≠ o.id)) })
    else
      collide env S0 k rest acc

/-- Elapsed seconds for this frame: `0` on the first frame (the first
timestamp becomes the baseline), else `(ts - lastTs) / 1000`. -/
def tickDt (env : Env) (s : GameState) : ℚ :=
  match s.lastTs with
  | none => 0
  | some t => (env.ts - t) / 1000

/-- `effectiveDt = dt * (slowmo > 0 ? 0.4 : 1)`. -/
def tickEffDt (env : Env) (s : GameState) : ℚ :=
  tickDt env s * (if s.slowmo > 0 then 0.4 else 1)

/-- The spawn phase: with probability `spawnRate * dt` one orb is pushed
onto the live list. -/
def tickSpawned (env : Env) (s : GameState) : List Orb :=
  if env.uSpawn < spawnRate s.score * tickDt env s then s.orbs ++ [spawnOrb env s]
  else s.orbs

/-- The orb list after the spawn, move and expiry phases of a frame. -/
def tickMoved (env : Env) (s : GameState) : List Orb :=
  moveAndExpire env s (tickEffDt env s) (tickSpawned env s)

/-- The accumulated state updates of a frame before the collision loop:
the `lastTs` baseline write, the three buff-timer decays (guards on the
snapshot timers, `Math.max(0, s - dt*1000)` functional updates), the id
counter bump on spawn, and the moved/expired orb list written back to
`orbsRef`. -/
def tickAcc (env : Env) (s : GameState) : GameState :=
  { s with
    lastTs := some env.ts
    slowmo := if s.slowmo > 0 then max 0 (s.slowmo - tickDt env s * 1000) else s.slowmo
    magnet := if s.magnet > 0 then max 0 (s.magnet - tickDt env s * 1000) else s.magnet
    x2 := if s.x2 > 0 then max 0 (s.x2 - tickDt env s * 1000) else s.x2
    nextId := if env.uSpawn < spawnRate s.score * tickDt env s then s.nextId + 1 else s.nextId
    orbs := tickMoved env s }

/-- One frame of the game loop (`tick` in the source), active only while
running and unpaused: baseline/delta timestamp handling, buff-timer decay
guarded by the snapshot timer values, spawn, move/expiry, then the
collision loop.  The snapshot for all reads is the state `s` at frame
entry. -/
def tick (env : Env) (s : GameState) : GameState :=
  collide env s 0 (tickMoved env s) (tickAcc env s)

/-- Source `startGame()`. -/
def startGame (s : GameState) : GameState :=
  { s with
    score := 0
    combo := 0
    mult := 1
    streak := 0
    slowmo := 0
    magnet := 0
    x2 := 0
    badges := []
    orbs := []
    nextId := 1
    lastTs := none
    running := true
    paused := false }

/-- The header pause button: `setPaused(p => !p)` (rendered only while
running); the pause-overlay Resume button is the `paused = true` case. -/
def togglePause (s : GameState) : GameState :=
  { s with paused := !s.paused }

/-- The welcome-screen Reset Best button: `setBest(0)`. -/
def resetBest (s : GameState) : GameState :=
  { s with best := 0 }

/-- The 80 ms decay interval (active while running and unpaused):
`setStreak(s => Math.max(0, s - 2)); setMult(m => clamp(m * 0.995, 1, 5))`. -/
def decayTick (s : GameState) : GameState :=
  { s with
    streak := max 0 (s.streak - 2)
    mult := clamp (s.mult * 0.995) 1 5 }

/-- The `useEffect([streak])` reaction:
`setMult(clamp(Number((1 + Math.floor(streak / 25) * 0.2).toFixed(1)), 1, 4))`. -/
def streakEffect (s : GameState) : GameState :=
  { s with mult := clamp (toFixed1 (1 + (⌊s.streak / 25⌋ : ℚ) * 0.2)) 1 4 }

/-- The input controller: `toNorm` clamps each normalized coordinate to
`[0,1]` and stores it as the player position. -/
def setPlayerPos (a b : ℚ) (s : GameState) : GameState :=
  { s with playerX := clamp a 0 1, playerY := clamp b 0 1 }

/-- The component's initial state: `useState` initialisers, with `best`
loaded from storage (`b0`; corrupt or absent data loads as the default). -/
def initState (b0 : ℤ) : GameState :=
  { running := false
    paused := false
    score := 0
    best := b0
    combo := 0
    mult := 1
    streak := 0
    sound := true
    slowmo := 0
    magnet := 0
    x2 := 0
    badges := []
    playerX := 1/2
    playerY := 1/2
    radius := 18
    orbs := []
    nextId := 1
    lastTs := none }

/-- One interface-reachable transition of the component: a UI action
(start, pause toggle, reset-best, sound toggle, pointer move), a frame of
the loop, a decay-interval firing, or the streak-reactive multiplier
update.  The loop and the decay interval are installed only while running
and unpaused. -/
inductive Step : GameState → GameState → Prop
  | start (s : GameState) : Step s (startGame s)
  | pauseToggle (s : GameState) : s.running = true → Step s (togglePause s)
  | reset (s : GameState) : s.running = false → Step s (resetBest s)
  | frame (s : GameState) (env : Env) : s.running = true → s.paused = false →
      Step s (tick env s)
  | decay (s : GameState) : s.running = true → s.paused = false → Step s (decayTick s)
  | streakUpd (s : GameState) : Step s (streakEffect s)
  | pointer (s : GameState) (a b : ℚ) : Step s (setPlayerPos a b s)
  | soundToggle (s : GameState) : Step s { s with sound := !s.sound }

/-- States reachable from a fresh mount (any loaded best score). -/
inductive Reachable : GameState → Prop
  | init (b0 : ℤ) : Reachable (initState b0)
  | step {s t : GameState} : Reachable s → Step s t → Reachable t

/-- Render condition of the welcome/start overlay: `{!running && (...)}`. -/
def welcomeShown (s : GameState) : Prop := s.running = false

/-- Render condition of the pause overlay: `{running && paused && (...)}`. -/
def pauseShown (s : GameState) : Prop := s.running = true ∧ s.paused = true

/-- Render condition of the game-over overlay: `{!running && score > 0 && (...)}`. -/
def gameOverShown (s : GameState) : Prop := s.running = false ∧ 0 < s.score

/-- The share message composed by `shareScore`. -/
def shareText (score : ℤ) : String :=
  "I scored " ++ toString score ++ " in Viral Arcade! Can you beat me?"

/-- Host capabilities and promise outcomes for one `shareScore()` call.
`shareOk` records whether a present `navigator.share` resolves (the user
completed the dialog) or rejects (failure/dismissal). -/
structure ShareEnv where
  shareAvailable : Bool
  shareOk : Bool
  clipboardOk : Bool

/-- Observable effects of one `shareScore()` call: the text handed to
`navigator.share`, the text handed to `clipboard.writeText`, and the toast
notice, if any. -/
structure ShareOutcome where
  nativeText : Option String
  clipboardText : Option String
  notice : Option String
deriving DecidableEq, Repr

/-- Source `shareScore()`: if `navigator.share` exists it is invoked and
any rejection is swallowed by `catch {}` (note: with no clipboard
fallback); only when it does not exist is the clipboard used, with the
success toast, and a clipboard failure is swallowed silently. -/
def shareScore (score : ℤ) (env : ShareEnv) : ShareOutcome :=
  if env.shareAvailable then
    { nativeText := some (shareText score), clipboardText := none, notice := none }
  else if env.clipboardOk then
    { nativeText := none, clipboardText := some (shareText score),
      notice := some "Copied! Share anywhere" }
  else
    { nativeText := none, clipboardText := some (shareText score), notice := none }

/-- Modelled from the spec: the claimed single-draw hierarchical kind
classification (claim C8) — one uniform draw `d`, power if `d` is below
the power chance, else bad if `d` is below the hazard share, else good. -/
def kindSingleDraw (d pc bs : ℚ) : Kind :=
  if d < pc then Kind.power else if d < bs then Kind.bad else Kind.good

/-! ## Concrete inputs used by witnesses and counterexamples -/

/-- A good orb sitting on the player centre. -/
def goodOrbW : Orb :=
  { id := 1, kind := Kind.good, posX := 1/2, posY := 1/2, velX := 0, velY := 0,
    radius := 10, bornAt := 0, ttl := 5000, spin := 0 }

/-- A hazard orb sitting on the player centre. -/
def badOrbW : Orb :=
  { id := 2, kind := Kind.bad, posX := 1/2, posY := 1/2, velX := 0, velY := 0,
    radius := 12, bornAt := 0, ttl := 5000, spin := 0 }

/-- A mid-run state at score 190 with base multiplier and no active
score-double, about to collect a good orb (worth 10). -/
def s190 : GameState :=
  { initState 0 with running := true, score := 190 }

/-- A mid-run state at combo 19 (the next good collection reaches combo
20, a positive multiple of 10) with no buff timers running. -/
def s19 : GameState :=
  { initState 0 with running := true, combo := 19 }

/-- Environment for the spawn-kind counterexample: the power draw is 0.5
and the hazard draw is 0.05 (score 0, so powerChance = 0.08 and
badShare = 0.35). -/
def envSpawnCex : Env :=
  { ts := 0, now := 0, w := 100, h := 100, uSpawn := 0,
    draws := { uEdge := 0, uX := 1/2, uY := 0, uJx := 1/2, uJy := 1/2,
               uV1 := 4/7, uV2 := 4/7, uPower := 1/2, uBad := 1/20,
               uRad := 1/2, uTtl := 0, uSpin := 0 },
    choice := fun _ => 0, hypot := fun _ _ => 1/2 }

/-- Environment for the C7 witness: frame at `now = 100` with inert
draws. -/
def envW : Env :=
  { ts := 100, now := 100, w := 100, h := 100, uSpawn := 1,
    draws := { uEdge := 0, uX := 0, uY := 0, uJx := 0, uJy := 0, uV1 := 0,
               uV2 := 0, uPower := 0, uBad := 0, uRad := 0, uTtl := 0, uSpin := 0 },
    choice := fun _ => 0, hypot := fun _ _ => 0 }

/-- Frame state for the C2 counterexample and witness: score 0, best 0,
a good orb and then a hazard orb both sitting on the player. -/
def sC2 : GameState :=
  { initState 0 with
    running := true
    lastTs := some 0
    nextId := 3
    orbs := [goodOrbW, badOrbW] }

/-- Environment for the C2 counterexample and witness: a 16 ms frame with
no spawn. -/
def envC2 : Env :=
  { ts := 16, now := 10, w := 100, h := 100, uSpawn := 1,
    draws := { uEdge := 0, uX := 0, uY := 0, uJx := 0, uJy := 0, uV1 := 0,
               uV2 := 0, uPower := 0, uBad := 0, uRad := 0, uTtl := 0, uSpin := 0 },
    choice := fun _ => 0, hypot := fun _ _ => 0 }

/-- The two orbs of `sC2` after the move phase of the `envC2` frame: the
frame is 16 ms, both velocities are zero, so only the spin advances. -/
def goodOrbW2 : Orb := { goodOrbW with spin := 1/50 }

/-- The hazard orb of `sC2` after the move phase of the `envC2` frame. -/
def badOrbW2 : Orb := { badOrbW with spin := 3/100 }

/-- The streak/multiplier invariant: streak in `[0, 100]`, multiplier in
`[1, 1.8]`. -/
def MultInv (s : GameState) : Prop :=
  1 ≤ s.mult ∧ s.mult ≤ 9/5 ∧ 0 ≤ s.streak ∧ s.streak ≤ 100

/-! ## A concrete reachable play-through (used by the C5 and C6
counterexamples): start, collect one good orb (+10), die to a hazard
(best becomes 10), restart, die at score 0 (best stays 10). -/

/-- Inert spawn draws (frames that do not spawn). -/
def dIdle : SpawnDraws :=
  { uEdge := 0, uX := 0, uY := 0, uJx := 0, uJy := 0, uV1 := 0, uV2 := 0,
    uPower := 0, uBad := 0, uRad := 0, uTtl := 0, uSpin := 0 }

/-- Draws spawning a good orb at the top edge, centre, falling straight
down with no jitter. -/
def dGoodTop : SpawnDraws :=
  { uEdge := 0, uX := 1/2, uY := 0, uJx := 1/2, uJy := 1/2, uV1 := 4/7, uV2 := 4/7,
    uPower := 1/2, uBad := 1/2, uRad := 1/2, uTtl := 0, uSpin := 0 }

/-- Same as `dGoodTop` but the hazard draw comes up below the hazard
share, so the spawn is a hazard. -/
def dBadTop : SpawnDraws := { dGoodTop with uBad := 0 }

/-- Baseline frame of run 1 (first timestamp, no spawn). -/
def envT1 : Env :=
  { ts := 0, now := 0, w := 100, h := 100, uSpawn := 1/2, draws := dIdle,
    choice := fun _ => 0, hypot := fun _ _ => 0 }

/-- Frame 2 of run 1: spawns the good orb and collects it.  The `hypot`
oracle returns the true length 1/2 of the centre vector (0, 1/2). -/
def envT2 : Env :=
  { ts := 100, now := 100, w := 100, h := 100, uSpawn := 0, draws := dGoodTop,
    choice := fun _ => 0, hypot := fun _ _ => 1/2 }

/-- Frame 3 of run 1: spawns a hazard onto the player. -/
def envT3 : Env :=
  { ts := 200, now := 200, w := 100, h := 100, uSpawn := 0, draws := dBadTop,
    choice := fun _ => 0, hypot := fun _ _ => 1/2 }

/-- Baseline frame of run 2. -/
def envT4 : Env :=
  { ts := 0, now := 300, w := 100, h := 100, uSpawn := 1/2, draws := dIdle,
    choice := fun _ => 0, hypot := fun _ _ => 0 }

/-- Frame 2 of run 2: spawns a hazard onto the player at score 0. -/
def envT5 : Env :=
  { ts := 100, now := 400, w := 100, h := 100, uSpawn := 0, draws := dBadTop,
    choice := fun _ => 0, hypot := fun _ _ => 1/2 }

/-- Run 1 started. -/
def s1c : GameState := startGame (initState 0)

/-- After the baseline frame. -/
def s2c : GameState := { s1c with lastTs := some 0 }

/-- The player dragged near the top edge at (0.5, 0.05). -/
def s2p : GameState := { s2c with playerY := 1/20 }

/-- The good orb spawned by `envT2` (before the move phase). -/
def orbG1 : Orb :=
  { id := 1, kind := Kind.good, posX := 1/2, posY := 0, velX := 0, velY := 7/10,
    radius := 13, bornAt := 100, ttl := 5000, spin := 0 }

/-- The good orb after the move phase of the `envT2` frame. -/
def orbG2 : Orb := { orbG1 with posY := 49/1000, spin := 1/50 }

/-- After the collecting frame: score 10, combo 1, streak 5. -/
def s3c : GameState :=
  { s2p with score := 10, combo := 1, streak := 5, nextId := 2, lastTs := some 100 }

/-- The hazard orb spawned by `envT3` (before the move phase); the
difficulty speed at score 10 is 70.34. -/
def orbB1 : Orb :=
  { id := 2, kind := Kind.bad, posX := 1/2, posY := 0, velX := 0, velY := 3517/5000,
    radius := 15, bornAt := 200, ttl := 5000, spin := 0 }

/-- The hazard orb after the move phase of the `envT3` frame. -/
def orbB2 : Orb := { orbB1 with posY := 12369289/250000000, spin := 3/100 }

/-- Run 1 over: the hazard hit ends the run, best becomes 10. -/
def s4c : GameState :=
  { s3c with
    running := false
    paused := false
    streak := 0
    combo := 0
    mult := 1
    best := 10
    lastTs := some 200
    nextId := 3
    orbs := [orbB2] }

/-- Run 2 started (best 10 persists). -/
def s5c : GameState := startGame s4c

/-- After the baseline frame of run 2. -/
def s6c : GameState := { s5c with lastTs := some 0 }

/-- The hazard orb spawned by `envT5` (before the move phase). -/
def orbB3 : Orb :=
  { id := 1, kind := Kind.bad, posX := 1/2, posY := 0, velX := 0, velY := 7/10,
    radius := 15, bornAt := 400, ttl := 5000, spin := 0 }

/-- The hazard orb after the move phase of the `envT5` frame. -/
def orbB4 : Orb := { orbB3 with posY := 49/1000, spin := 3/100 }

/-- Run 2 over at score 0: best stays 10, the welcome overlay is the only
one rendered, so its Reset Best button is available. -/
def s7c : GameState :=
  { s6c with
    running := false
    paused := false
    streak := 0
    combo := 0
    mult := 1
    lastTs := some 100
    nextId := 2
    orbs := [orbB4] }

/-! ## Helper lemmas: the badge loop only touches the badge list -/

lemma badgeFold_score (S0 : GameState) (l : List ℤ) :
    ∀ a : GameState, (List.foldl (badgeStep S0) a l).score = a.score := by
  induction l with
  | nil => intro a; rfl
  | cons m t ih =>
    intro a
    rw [List.foldl_cons, ih]
    unfold badgeStep
    split <;> rfl

lemma badgeFold_combo (S0 : GameState) (l : List ℤ) :
    ∀ a : GameState, (List.foldl (badgeStep S0) a l).combo = a.combo := by
  induction l with
  | nil => intro a; rfl
  | cons m t ih =>
    intro a
    rw [List.foldl_cons, ih]
    unfold badgeStep
    split <;> rfl

lemma badgeFold_streak (S0 : GameState) (l : List ℤ) :
    ∀ a : GameState, (List.foldl (badgeStep S0) a l).streak = a.streak := by
  induction l with
  | nil => intro a; rfl
  | cons m t ih =>
    intro a
    rw [List.foldl_cons, ih]
    unfold badgeStep
    split <;> rfl

lemma badgeFold_mult (S0 : GameState) (l : List ℤ) :
    ∀ a : GameState, (List.foldl (badgeStep S0) a l).mult = a.mult := by
  induction l with
  | nil => intro a; rfl
  | cons m t ih =>
    intro a
    rw [List.foldl_cons, ih]
    unfold badgeStep
    split <;> rfl

lemma badgeFold_x2 (S0 : GameState) (l : List ℤ) :
    ∀ a : GameState, (List.foldl (badgeStep S0) a l).x2 = a.x2 := by
  induction l with
  | nil => intro a; rfl
  | cons m t ih =>
    intro a
    rw [List.foldl_cons, ih]
    unfold badgeStep
    split <;> rfl

lemma badgeFold_best (S0 : GameState) (l : List ℤ) :
    ∀ a : GameState, (List.foldl (badgeStep S0) a l).best = a.best := by
  induction l with
  | nil => intro a; rfl
  | cons m t ih =>
    intro a
    rw [List.foldl_cons, ih]
    unfold badgeStep
    split <;> rfl

lemma badgeFold_running (S0 : GameState) (l : List ℤ) :
    ∀ a : GameState, (List.foldl (badgeStep S0) a l).running = a.running := by
  induction l with
  | nil => intro a; rfl
  | cons m t ih =>
    intro a
    rw [List.foldl_cons, ih]
    unfold badgeStep
    split <;> rfl

lemma badgeFold_paused (S0 : GameState) (l : List ℤ) :
    ∀ a : GameState, (List.foldl (badgeStep S0) a l).paused = a.paused := by
  induction l with
  | nil => intro a; rfl
  | cons m t ih =>
    intro a
    rw [List.foldl_cons, ih]
    unfold badgeStep
    split <;> rfl

/-! ## Helper lemmas: field behaviour of the collect update -/

lemma collectUpd_best (S0 acc : GameState) (o : Orb) (c : ℚ) :
    (collectUpd S0 acc o c).best = acc.best := by
  unfold collectUpd
  split
  · rfl
  · split
    · split
      · rfl
      · split <;> rfl
    · rfl

lemma collectUpd_mult (S0 acc : GameState) (o : Orb) (c : ℚ) :
    (collectUpd S0 acc o c).mult = acc.mult := by
  unfold collectUpd
  split
  · rfl
  · split
    · split
      · rfl
      · split <;> rfl
    · rfl

lemma collectUpd_running (S0 acc : GameState) (o : Orb) (c : ℚ) :
    (collectUpd S0 acc o c).running = acc.running := by
  unfold collectUpd
  split
  · rfl
  · split
    · split
      · rfl
      · split <;> rfl
    · rfl

lemma collectUpd_paused (S0 acc : GameState) (o : Orb) (c : ℚ) :
    (collectUpd S0 acc o c).paused = acc.paused := by
  unfold collectUpd
  split
  · rfl
  · split
    · split
      · rfl
      · split <;> rfl
    · rfl

lemma collectUpd_streak (S0 acc : GameState) (o : Orb) (c : ℚ) :
    (collectUpd S0 acc o c).streak =
      if o.kind = Kind.good then min 100 (acc.streak + 5) else acc.streak := by
  unfold collectUpd
  split
  · rfl
  · split
    · split
      · rfl
      · split <;> rfl
    · rfl

lemma handleCollect_best (S0 acc : GameState) (o : Orb) (c : ℚ) :
    (handleCollect S0 acc o c).best = acc.best := by
  unfold handleCollect badgeCheck
  rw [badgeFold_best, collectUpd_best]

lemma handleCollect_mult (S0 acc : GameState) (o : Orb) (c : ℚ) :
    (handleCollect S0 acc o c).mult = acc.mult := by
  unfold handleCollect badgeCheck
  rw [badgeFold_mult, collectUpd_mult]

lemma handleCollect_running (S0 acc : GameState) (o : Orb) (c : ℚ) :
    (handleCollect S0 acc o c).running = acc.running := by
  unfold handleCollect badgeCheck
  rw [badgeFold_running, collectUpd_running]

lemma handleCollect_paused (S0 acc : GameState) (o : Orb) (c : ℚ) :
    (handleCollect S0 acc o c).paused = acc.paused := by
  unfold handleCollect badgeCheck
  rw [badgeFold_paused, collectUpd_paused]

lemma handleCollect_streak (S0 acc : GameState) (o : Orb) (c : ℚ) :
    (handleCollect S0 acc o c).streak =
      if o.kind = Kind.good then min 100 (acc.streak + 5) else acc.streak := by
  unfold handleCollect badgeCheck
  rw [badgeFold_streak, collectUpd_streak]

/-! ## Claim C9 — good-orb score increment -/

/-- Claim C9: collecting a good orb increases the score by exactly
`Math.round(10 * mult * (x2 > 0 ? 2 : 1))`, computed from the snapshot
multiplier and score-double timer; in particular by 10 when the
multiplier is 1 with score-double inactive, and by 40 when the multiplier
is 2.0 with score-double active. -/
theorem collect_good_score (S0 acc : GameState) (o : Orb) (c : ℚ)
    (hg : o.kind = Kind.good) :
    (handleCollect S0 acc o c).score =
        acc.score + mathRound (10 * S0.mult * (if S0.x2 > 0 then 2 else 1))
    ∧ (S0.mult = 1 → S0.x2 = 0 → (handleCollect S0 acc o c).score = acc.score + 10)
    ∧ (S0.mult = 2 → S0.x2 > 0 → (handleCollect S0 acc o c).score = acc.score + 40) := by
  have hscore : (handleCollect S0 acc o c).score =
      acc.score + mathRound (10 * S0.mult * (if S0.x2 > 0 then 2 else 1)) := by
    unfold handleCollect badgeCheck
    rw [badgeFold_score]
    simp [collectUpd, hg]
  refine ⟨hscore, ?_, ?_⟩
  · intro hm hx
    rw [hscore, hm, hx]
    norm_num [mathRound]
  · intro hm hx
    rw [hscore, hm, if_pos hx]
    norm_num [mathRound]

/-- Witness for C9 at a concrete state: multiplier 1, score-double off,
score increases from 0 to 10. -/
theorem collect_good_score_witness :
    (handleCollect (initState 0) (initState 0) goodOrbW 0).score = (initState 0).score + 10 :=
  (collect_good_score (initState 0) (initState 0) goodOrbW 0 rfl).2.1 rfl rfl

/-! ## Claim C3 — combo milestone for the score-double buff -/

/-- Counterexample to claim C3: at snapshot combo 19 a good collection
makes the combo 20 — a positive multiple of 10 — yet the score-double
timer is left at 0, not set to 4000 ms (the source gates it on
`combo + 1 === 10` exactly). -/
theorem combo_twenty_no_x2_cex :
    (handleCollect s19 s19 goodOrbW 0).combo = 20
    ∧ (handleCollect s19 s19 goodOrbW 0).combo % 10 = 0
    ∧ (handleCollect s19 s19 goodOrbW 0).x2 = 0
    ∧ (handleCollect s19 s19 goodOrbW 0).x2 ≠ 4000 := by
  refine ⟨by decide, by decide, by decide, by decide⟩

/-- Claim C3 (amended): on a good collection the score-double timer is set
to 4000 ms exactly when the resulting combo equals 10; for any other
resulting combo value — including the larger multiples 20, 30, … — the
combo path leaves the score-double timer unchanged.  The resulting combo
is the incremented one. -/
theorem combo_x2_exact_ten (S0 : GameState) (o : Orb) (c : ℚ)
    (hg : o.kind = Kind.good) :
    (handleCollect S0 S0 o c).x2 = (if S0.combo + 1 = 10 then 4000 else S0.x2)
    ∧ (handleCollect S0 S0 o c).combo = S0.combo + 1 := by
  constructor
  · unfold handleCollect badgeCheck
    rw [badgeFold_x2]
    simp [collectUpd, hg]
  · unfold handleCollect badgeCheck
    rw [badgeFold_combo]
    simp [collectUpd, hg]

/-- Witness for C3 (amended) at combo 9: the tenth collection sets the
score-double timer to 4000 ms. -/
theorem combo_x2_exact_ten_witness :
    (handleCollect { initState 0 with running := true, combo := 9 }
        { initState 0 with running := true, combo := 9 } goodOrbW 0).x2 = 4000 := by
  have h := (combo_x2_exact_ten { initState 0 with running := true, combo := 9 }
    goodOrbW 0 rfl).1
  rw [h]
  decide

/-! ## Claim C1 — badge award rule (code bug) -/

/-- Claim C1, evaluated at the failing input: from score 190 (multiplier 1,
score-double off, no badges yet) a good collection moves the score to 200,
crossing the milestone 200, yet no badge is appended: the source tests
`score + 1 >= m` — as if scoring events incremented the score by 1 —
whereas every good collection increments it by at least 10, so genuine
crossings are missed unless the pre-event score is exactly `m - 1`. -/
theorem badge_missed_at_crossing :
    s190.score = 190
    ∧ (handleCollect s190 s190 goodOrbW 0).score = 200
    ∧ (handleCollect s190 s190 goodOrbW 0).badges = [] := by
  refine ⟨by decide, by with_unfolding_all decide, by decide⟩

/-! ## Claim C4 — share fallback -/

/-- Counterexample to claim C4: when the native share capability is
present but the share attempt fails (or is dismissed), the source swallows
the rejection with `catch {}` and does not fall back to the clipboard —
nothing is copied and no notice is shown. -/
theorem share_failure_no_fallback_cex :
    ({ shareAvailable := true, shareOk := false, clipboardOk := true } : ShareEnv).shareOk = false
    ∧ (shareScore 42 { shareAvailable := true, shareOk := false, clipboardOk := true }).clipboardText = none
    ∧ (shareScore 42 { shareAvailable := true, shareOk := false, clipboardOk := true }).notice = none := by
  refine ⟨rfl, rfl, rfl⟩

/-- Claim C4 (amended): the clipboard fallback happens exactly when the
native share capability is absent.  In that case the fixed message
`"I scored {score} in Viral Arcade! Can you beat me?"` is written to the
clipboard and, on successful copy, the "Copied! Share anywhere" notice is
shown, a failed copy being swallowed silently.  When the capability is
present, the message is passed to the native share dialog and any failure
or dismissal is swallowed with no clipboard fallback and no notice. -/
theorem share_fallback_behavior (score : ℤ) (env : ShareEnv) :
    (env.shareAvailable = true →
      shareScore score env =
        { nativeText := some (shareText score), clipboardText := none, notice := none })
    ∧ (env.shareAvailable = false →
      (shareScore score env).clipboardText = some (shareText score)
      ∧ (shareScore score env).nativeText = none
      ∧ (shareScore score env).notice =
          (if env.clipboardOk then some "Copied! Share anywhere" else none)) := by
  constructor
  · intro h
    unfold shareScore
    rw [if_pos h]
  · intro h
    unfold shareScore
    rw [if_neg (by simp [h])]
    by_cases hc : env.clipboardOk
    · simp [hc]
    · simp [hc]

/-- Witness for C4 (amended): with no native share and a working
clipboard, the message for score 5 is copied and the notice shown. -/
theorem share_fallback_behavior_witness :
    (shareScore 5 { shareAvailable := false, shareOk := false, clipboardOk := true }).clipboardText
      = some (shareText 5)
    ∧ (shareScore 5 { shareAvailable := false, shareOk := false, clipboardOk := true }).notice
      = some "Copied! Share anywhere" := by
  have h := (share_fallback_behavior 5
    { shareAvailable := false, shareOk := false, clipboardOk := true }).2 rfl
  exact ⟨h.1, h.2.2⟩

/-! ## Claim C8 — spawn kind classification -/

/-- Counterexample to claim C8: the source classifies with TWO independent
draws (`isPower` from one `Math.random()`, `isBad` from another), not a
single hierarchical draw.  With power draw 0.5 and hazard draw 0.05 the
code spawns a hazard, while the claimed single-draw rule yields good for
d = 0.5 and power for d = 0.05 — no single draw among those consumed
produces the code's answer. -/
theorem spawn_kind_single_draw_cex :
    (spawnOrb envSpawnCex (startGame (initState 0))).kind = Kind.bad
    ∧ kindSingleDraw (1/2) (powerChance 0) (badShare 0) = Kind.good
    ∧ kindSingleDraw (1/20) (powerChance 0) (badShare 0) = Kind.power := by
  refine ⟨by with_unfolding_all decide, by with_unfolding_all decide,
    by with_unfolding_all decide⟩

/-- Claim C8 (amended): the spawned kind is determined hierarchically from
TWO independent uniform draws — power when the first draw is below
`powerChance` (evaluated first), else bad when the second draw is below
`badShare`, else good. -/
theorem spawn_kind_two_draws (env : Env) (s : GameState) :
    (spawnOrb env s).kind =
      (if env.draws.uPower < powerChance s.score then Kind.power
       else if env.draws.uBad < badShare s.score then Kind.bad
       else Kind.good) := by
  by_cases hp : env.draws.uPower < powerChance s.score
  · simp [spawnOrb, hp]
  · by_cases hb : env.draws.uBad < badShare s.score
    · simp [spawnOrb, hp, hb]
    · simp [spawnOrb, hp, hb]

/-! ## Claim C7 — orb expiry -/

lemma moveOrb_id (env : Env) (S0 : GameState) (effDt : ℚ) (o : Orb) :
    (moveOrb env S0 effDt o).id = o.id := rfl

lemma moveOrb_bornAt (env : Env) (S0 : GameState) (effDt : ℚ) (o : Orb) :
    (moveOrb env S0 effDt o).bornAt = o.bornAt := rfl

lemma moveOrb_ttl (env : Env) (S0 : GameState) (effDt : ℚ) (o : Orb) :
    (moveOrb env S0 effDt o).ttl = o.ttl := rfl

/-- Claim C7: in the move-and-expire phase of a frame, an uncollected orb
survives exactly while `now - bornAt < ttl`: it is kept (as its moved
version) whenever the elapsed time since creation is still below its
time-to-live, and once the elapsed time has reached the time-to-live no
orb with its identifier remains in the live list.  The expiry check never
removes an orb early, and collision handling only ever removes additional
orbs, never re-adds one. -/
theorem orb_expiry_exact (env : Env) (S0 : GameState) (effDt : ℚ) (orbs : List Orb)
    (o : Orb) (ho : o ∈ orbs) (hids : (orbs.map Orb.id).Nodup) :
    (env.now - o.bornAt < o.ttl →
      moveOrb env S0 effDt o ∈ moveAndExpire env S0 effDt orbs)
    ∧ (o.ttl ≤ env.now - o.bornAt →
      ∀ o2 ∈ moveAndExpire env S0 effDt orbs, o2.id ≠ o.id) := by
  constructor
  · intro h
    unfold moveAndExpire
    refine List.mem_filter.mpr ⟨List.mem_map_of_mem _ ho, ?_⟩
    rw [moveOrb_bornAt, moveOrb_ttl]
    exact decide_eq_true h
  · intro h o2 h2 heq
    unfold moveAndExpire at h2
    obtain ⟨hmem, hpred⟩ := List.mem_filter.mp h2
    obtain ⟨u, hu, rfl⟩ := List.mem_map.mp hmem
    rw [moveOrb_id] at heq
    have huo : u = o := List.inj_on_of_nodup_map hids hu ho heq
    subst huo
    rw [moveOrb_bornAt, moveOrb_ttl] at hpred
    exact absurd (of_decide_eq_true hpred) (not_lt.mpr h)

/-- Witness for C7: a single fresh orb (age 100 ms, ttl 5000 ms) survives
the move-and-expire phase. -/
theorem orb_expiry_exact_witness :
    moveOrb envW (initState 0) 0 goodOrbW ∈ moveAndExpire envW (initState 0) 0 [goodOrbW] :=
  (orb_expiry_exact envW (initState 0) 0 [goodOrbW] goodOrbW (List.mem_singleton.mpr rfl)
    (by simp)).1 (by norm_num [goodOrbW, envW])

/-! ## Claim C2 — hazard collision ends the run -/

/-- If some orb in the list handed to the collision loop is a hazard and
overlaps the player, the loop reaches `endGame` (earlier good/power hits
only run `handleCollect`, which never touches running/paused/best), so the
frame ends the run and applies the best-score update to the loop entry
accumulator. -/
lemma collide_hazard (env : Env) (S0 : GameState) :
    ∀ (l : List Orb) (k : ℕ) (acc : GameState),
      (∃ o, o ∈ l ∧ o.kind = Kind.bad ∧ hitTest env S0 o = true) →
      (collide env S0 k l acc).running = false
      ∧ (collide env S0 k l acc).paused = false
      ∧ (collide env S0 k l acc).best =
          (if S0.score > acc.best then S0.score else acc.best) := by
  intro l
  induction l with
  | nil =>
    intro k acc h
    obtain ⟨o, ho, _, _⟩ := h
    exact absurd ho (List.not_mem_nil o)
  | cons o rest ih =>
    intro k acc h
    have step : collide env S0 k (o :: rest) acc =
        if hitTest env S0 o then
          (if o.kind = Kind.bad then endGame S0 acc
           else collide env S0 (if o.kind = Kind.power then k + 1 else k) rest
             (let acc1 := handleCollect S0 acc o (env.choice k)
              { acc1 with orbs := acc1.orbs.filter (fun x => decide (x.id ≠ o.id)) }))
        else collide env S0 k rest acc := rfl
    by_cases hhit : hitTest env S0 o = true
    · by_cases hbad : o.kind = Kind.bad
      · rw [step, if_pos hhit, if_pos hbad]
        exact ⟨rfl, rfl, rfl⟩
      · rw [step, if_pos hhit, if_neg hbad]
        obtain ⟨b, hb, hbk, hbh⟩ := h
        rcases List.mem_cons.mp hb with hbo | hbr
        · exact absurd (hbo ▸ hbk) hbad
        · have hacc : ((let acc1 := handleCollect S0 acc o (env.choice k)
              { acc1 with orbs := acc1.orbs.filter (fun x => decide (x.id ≠ o.id)) })
                : GameState).best = acc.best :=
            handleCollect_best S0 acc o (env.choice k)
          have h2 := ih (if o.kind = Kind.power then k + 1 else k)
            (let acc1 := handleCollect S0 acc o (env.choice k)
             { acc1 with orbs := acc1.orbs.filter (fun x => decide (x.id ≠ o.id)) })
            ⟨b, hbr, hbk, hbh⟩
          rw [hacc] at h2
          exact h2
    · rw [step, if_neg hhit]
      obtain ⟨b, hb, hbk, hbh⟩ := h
      rcases List.mem_cons.mp hb with hbo | hbr
      · exact absurd (hbo ▸ hbh) hhit
      · exact ih k acc ⟨b, hbr, hbk, hbh⟩

/-- Claim C2 (amended): if, during a frame entered while running and
unpaused, some hazard orb in the post-move live list overlaps the player,
the frame transitions the run to the ended state and sets the persisted
best to `max(previous best, score at the start of that frame)`.  (This
equals `max(best, final score)` unless a good/power orb was collected
earlier in the same frame: `endGame`'s best update reads the render
snapshot of `score`, not the accumulated one — see the counterexample.) -/
theorem hazard_ends_run (env : Env) (s : GameState)
    (hr : s.running = true) (hp : s.paused = false)
    (hbad : ∃ o, o ∈ tickMoved env s ∧ o.kind = Kind.bad ∧ hitTest env s o = true) :
    (tick env s).running = false ∧ (tick env s).paused = false
    ∧ (tick env s).best = max s.best s.score := by
  obtain ⟨h1, h2, h3⟩ := collide_hazard env s (tickMoved env s) 0 (tickAcc env s) hbad
  refine ⟨h1, h2, Eq.trans h3 ?_⟩
  show (if s.score > s.best then s.score else s.best) = max s.best s.score
  by_cases hc : s.score > s.best
  · rw [if_pos hc]
    exact (max_eq_right hc.le).symm
  · rw [if_neg hc]
    exact (max_eq_left (not_lt.mp hc)).symm

lemma c2_moved : tickMoved envC2 sC2 = [goodOrbW2, badOrbW2] := by
  have hg : moveOrb envC2 sC2 (2/125) goodOrbW = goodOrbW2 := by
    ext <;> norm_num [moveOrb, clamp, speedOf, tScore, envC2, sC2, goodOrbW, goodOrbW2,
      initState] <;> decide
  have hb : moveOrb envC2 sC2 (2/125) badOrbW = badOrbW2 := by
    ext <;> norm_num [moveOrb, clamp, speedOf, tScore, envC2, sC2, badOrbW, badOrbW2,
      initState] <;> decide
  have he : tickEffDt envC2 sC2 = 2/125 := by
    norm_num [tickEffDt, tickDt, envC2, sC2, initState]
  have hs : tickSpawned envC2 sC2 = [goodOrbW, badOrbW] := by
    norm_num [tickSpawned, spawnRate, tScore, tickDt, envC2, sC2, initState]
  unfold tickMoved moveAndExpire
  rw [hs, he, List.map_cons, List.map_cons, List.map_nil, hg, hb]
  norm_num [List.filter, envC2, goodOrbW2, badOrbW2, goodOrbW, badOrbW]

lemma c2_acc : tickAcc envC2 sC2 =
    { sC2 with lastTs := some 16, orbs := [goodOrbW2, badOrbW2] } := by
  unfold tickAcc
  rw [c2_moved]
  norm_num [tickDt, spawnRate, tScore, envC2, sC2, initState]

/-- The full result of the `envC2` frame on `sC2`. -/
lemma c2_tick : tick envC2 sC2 =
    { sC2 with
      running := false
      paused := false
      score := 10
      combo := 0
      mult := 1
      streak := 0
      orbs := [badOrbW2]
      lastTs := some 16 } := by
  show collide envC2 sC2 0 (tickMoved envC2 sC2) (tickAcc envC2 sC2) = _
  rw [c2_moved, c2_acc]
  norm_num [collide, hitTest, handleCollect, badgeCheck, badgeStep, milestones,
    collectUpd, endGame, mathRound, envC2, sC2, initState, goodOrbW2, badOrbW2,
    goodOrbW, badOrbW]
  decide

lemma c2_bad_hit : ∃ o, o ∈ tickMoved envC2 sC2 ∧ o.kind = Kind.bad
    ∧ hitTest envC2 sC2 o = true := by
  refine ⟨badOrbW2, ?_, rfl, ?_⟩
  · rw [c2_moved]
    exact List.mem_cons_of_mem _ (List.mem_singleton.mpr rfl)
  · with_unfolding_all decide

/-- Counterexample to claim C2 as stated: in a frame that collects a good
orb (+10) and then hits a hazard, the run ends with final score 10 but the
persisted best becomes 0 = max(best, frame-start score), NOT
max(best, 10) = 10: `endGame`'s `setBest(b => (score > b ? score : b))`
reads the stale render-snapshot `score`. -/
theorem hazard_stale_best_cex :
    sC2.running = true ∧ sC2.paused = false
    ∧ (∃ o, o ∈ tickMoved envC2 sC2 ∧ o.kind = Kind.bad ∧ hitTest envC2 sC2 o = true)
    ∧ (tick envC2 sC2).running = false
    ∧ (tick envC2 sC2).score = 10
    ∧ (tick envC2 sC2).best = 0
    ∧ (tick envC2 sC2).best ≠ max sC2.best ((tick envC2 sC2).score) := by
  refine ⟨rfl, rfl, c2_bad_hit, ?_, ?_, ?_, ?_⟩ <;> rw [c2_tick] <;> with_unfolding_all decide

/-- Witness for C2 (amended) on a concrete fatal frame. -/
theorem hazard_ends_run_witness :
    (tick envC2 sC2).running = false ∧ (tick envC2 sC2).paused = false
    ∧ (tick envC2 sC2).best = max sC2.best sC2.score :=
  hazard_ends_run envC2 sC2 rfl rfl c2_bad_hit

/-! ## Claim C10 — multiplier bounds -/

lemma multInv_collide (env : Env) (S0 : GameState) :
    ∀ (l : List Orb) (k : ℕ) (acc : GameState),
      MultInv acc → MultInv (collide env S0 k l acc) := by
  intro l
  induction l with
  | nil => intro k acc h; exact h
  | cons o rest ih =>
    intro k acc h
    have step : collide env S0 k (o :: rest) acc =
        if hitTest env S0 o then
          (if o.kind = Kind.bad then endGame S0 acc
           else collide env S0 (if o.kind = Kind.power then k + 1 else k) rest
             (let acc1 := handleCollect S0 acc o (env.choice k)
              { acc1 with orbs := acc1.orbs.filter (fun x => decide (x.id ≠ o.id)) }))
        else collide env S0 k rest acc := rfl
    rw [step]
    by_cases hhit : hitTest env S0 o = true
    · rw [if_pos hhit]
      by_cases hbad : o.kind = Kind.bad
      · rw [if_pos hbad]
        exact ⟨le_refl 1, by norm_num [endGame], le_refl 0, by norm_num [endGame]⟩
      · rw [if_neg hbad]
        apply ih
        have hm : ((let acc1 := handleCollect S0 acc o (env.choice k)
            { acc1 with orbs := acc1.orbs.filter (fun x => decide (x.id ≠ o.id)) })
              : GameState).mult = acc.mult := handleCollect_mult S0 acc o (env.choice k)
        have hs : ((let acc1 := handleCollect S0 acc o (env.choice k)
            { acc1 with orbs := acc1.orbs.filter (fun x => decide (x.id ≠ o.id)) })
              : GameState).streak =
            (if o.kind = Kind.good then min 100 (acc.streak + 5) else acc.streak) :=
          handleCollect_streak S0 acc o (env.choice k)
        refine ⟨?_, ?_, ?_, ?_⟩
        · rw [hm]; exact h.1
        · rw [hm]; exact h.2.1
        · rw [hs]
          split
          · exact le_min (by norm_num) (by linarith [h.2.2.1])
          · exact h.2.2.1
        · rw [hs]
          split
          · exact min_le_left 100 _
          · exact h.2.2.2
    · rw [if_neg hhit]
      exact ih k acc h

lemma multInv_decay (s : GameState) (h : MultInv s) : MultInv (decayTick s) := by
  obtain ⟨h1, h2, h3, h4⟩ := h
  refine ⟨?_, ?_, ?_, ?_⟩
  · exact le_max_left 1 _
  · show max 1 (min 5 (s.mult * 0.995)) ≤ 9/5
    refine max_le (by norm_num) (le_trans (min_le_right 5 _) ?_)
    have hmul : s.mult * (0.995 : ℚ) ≤ (9/5) * (0.995 : ℚ) :=
      mul_le_mul_of_nonneg_right h2 (by norm_num)
    calc s.mult * (0.995 : ℚ) ≤ (9/5) * (0.995 : ℚ) := hmul
      _ ≤ 9/5 := by norm_num
  · exact le_max_left 0 _
  · show max 0 (s.streak - 2) ≤ 100
    exact max_le (by norm_num) (by linarith)

lemma multInv_streakEffect (s : GameState) (h : MultInv s) : MultInv (streakEffect s) := by
  obtain ⟨h1, h2, h3, h4⟩ := h
  have hn0 : 0 ≤ ⌊s.streak / 25⌋ := Int.floor_nonneg.mpr (by positivity)
  have hn4 : ⌊s.streak / 25⌋ ≤ 4 := by
    have hq : s.streak / 25 ≤ 4 := by linarith
    calc ⌊s.streak / 25⌋ ≤ ⌊(4 : ℚ)⌋ := Int.floor_le_floor hq
      _ = 4 := by norm_num
  set n : ℤ := ⌊s.streak / 25⌋ with hn
  have hc0 : (0 : ℚ) ≤ (n : ℚ) := by exact_mod_cast hn0
  have hc4 : (n : ℚ) ≤ 4 := by exact_mod_cast hn4
  have hfix : toFixed1 (1 + (n : ℚ) * 0.2) = 1 + (n : ℚ) * 0.2 := by
    unfold toFixed1 mathRound
    have hfl : ⌊(1 + (n : ℚ) * 0.2) * 10 + 1/2⌋ = 10 + 2 * n := by
      rw [Int.floor_eq_iff]
      constructor
      · push_cast
        ring_nf
        linarith
      · push_cast
        ring_nf
        linarith
    rw [hfl]
    push_cast
    ring
  have hv1 : (1 : ℚ) ≤ 1 + (n : ℚ) * 0.2 := by nlinarith
  have hv2 : 1 + (n : ℚ) * 0.2 ≤ 9/5 := by nlinarith
  refine ⟨?_, ?_, h3, h4⟩
  · show 1 ≤ clamp (toFixed1 (1 + (n : ℚ) * 0.2)) 1 4
    exact le_max_left 1 _
  · show clamp (toFixed1 (1 + (n : ℚ) * 0.2)) 1 4 ≤ 9/5
    rw [hfix]
    unfold clamp
    exact max_le (by norm_num) (le_trans (min_le_right 4 _) hv2)

lemma multInv_reachable : ∀ s : GameState, Reachable s → MultInv s := by
  intro s h
  induction h with
  | init b0 => exact ⟨le_refl 1, by norm_num [initState], le_refl 0, by norm_num [initState]⟩
  | step hr hstep ih =>
    cases hstep with
    | start => exact ⟨le_refl 1, by norm_num [startGame], le_refl 0, by norm_num [startGame]⟩
    | pauseToggle hg => exact ih
    | reset hg => exact ih
    | frame env h1 h2 => exact multInv_collide env _ (tickMoved env _) 0 (tickAcc env _) ih
    | decay h1 h2 => exact multInv_decay _ ih
    | streakUpd => exact multInv_streakEffect _ ih
    | pointer a b => exact ih
    | soundToggle => exact ih

/-- Claim C10: in every interface-reachable state the multiplier lies in
`[1, 1.8]` and the streak in `[0, 100]`: `startGame` sets the multiplier to
1, the streak-derived recomputation yields at most
`1 + ⌊100/25⌋ * 0.2 = 1.8` because the streak is itself kept in `[0, 100]`,
and the 80 ms decay multiplies by 0.995 with a lower clamp of 1 — so the
documented caps of 4 (streak path) and 5 (decay path) are never reached. -/
theorem mult_bounded (s : GameState) (h : Reachable s) :
    1 ≤ s.mult ∧ s.mult ≤ 9/5 ∧ 0 ≤ s.streak ∧ s.streak ≤ 100 :=
  multInv_reachable s h

/-- Witness for C10 at the initial state. -/
theorem mult_bounded_witness :
    1 ≤ (initState 0).mult ∧ (initState 0).mult ≤ 9/5
    ∧ 0 ≤ (initState 0).streak ∧ (initState 0).streak ≤ 100 :=
  mult_bounded (initState 0) (Reachable.init 0)

/-! ## Claim C5 — best-score monotonicity -/

lemma collide_best_mono (env : Env) (S0 : GameState) :
    ∀ (l : List Orb) (k : ℕ) (acc : GameState),
      acc.best ≤ (collide env S0 k l acc).best := by
  intro l
  induction l with
  | nil => intro k acc; exact le_refl _
  | cons o rest ih =>
    intro k acc
    have step : collide env S0 k (o :: rest) acc =
        if hitTest env S0 o then
          (if o.kind = Kind.bad then endGame S0 acc
           else collide env S0 (if o.kind = Kind.power then k + 1 else k) rest
             (let acc1 := handleCollect S0 acc o (env.choice k)
              { acc1 with orbs := acc1.orbs.filter (fun x => decide (x.id ≠ o.id)) }))
        else collide env S0 k rest acc := rfl
    rw [step]
    by_cases hhit : hitTest env S0 o = true
    · rw [if_pos hhit]
      by_cases hbad : o.kind = Kind.bad
      · rw [if_pos hbad]
        show acc.best ≤ (if S0.score > acc.best then S0.score else acc.best)
        split
        · next hgt => exact le_of_lt hgt
        · exact le_refl _
      · rw [if_neg hbad]
        have hacc : ((let acc1 := handleCollect S0 acc o (env.choice k)
            { acc1 with orbs := acc1.orbs.filter (fun x => decide (x.id ≠ o.id)) })
              : GameState).best = acc.best := handleCollect_best S0 acc o (env.choice k)
        calc acc.best
            = _ := hacc.symm
          _ ≤ _ := ih (if o.kind = Kind.power then k + 1 else k) _
    · rw [if_neg hhit]
      exact ih k acc

lemma tick_best_mono (env : Env) (s : GameState) : s.best ≤ (tick env s).best :=
  collide_best_mono env s (tickMoved env s) 0 (tickAcc env s)

/-- Claim C5 (amended): along every interface-reachable transition the
persisted best score either does not decrease or is set to exactly 0 by
the welcome-screen Reset Best button — the only interface operation that
can lower it.  The unqualified monotonicity claim fails because of that
button (see the counterexample). -/
theorem best_step_monotone_or_reset (s t : GameState) (h : Step s t) :
    s.best ≤ t.best ∨ t.best = 0 := by
  cases h with
  | start => exact Or.inl (le_refl _)
  | pauseToggle hg => exact Or.inl (le_refl _)
  | reset hg => exact Or.inr rfl
  | frame env h1 h2 => exact Or.inl (tick_best_mono env _)
  | decay h1 h2 => exact Or.inl (le_refl _)
  | streakUpd => exact Or.inl (le_refl _)
  | pointer a b => exact Or.inl (le_refl _)
  | soundToggle => exact Or.inl (le_refl _)

/-- Witness for C5 (amended) on the start transition from a fresh mount. -/
theorem best_step_monotone_or_reset_witness :
    (initState 0).best ≤ (startGame (initState 0)).best
    ∨ (startGame (initState 0)).best = 0 :=
  best_step_monotone_or_reset (initState 0) (startGame (initState 0))
    (Step.start (initState 0))

/-! ## Claim C6 — overlay conditions -/

/-- Claim C6 (amended): the pause overlay (`running && paused`) is indeed
mutually exclusive with the welcome overlay (`!running`) and the game-over
overlay (`!running && score > 0`); but the welcome overlay is rendered
whenever the game is not running — not only before the first run — so the
game-over overlay is always accompanied by the welcome overlay (both
render conditions hold after a run ends with positive score). -/
theorem overlay_conditions (s : GameState) :
    (pauseShown s → ¬ welcomeShown s ∧ ¬ gameOverShown s)
    ∧ (welcomeShown s ↔ s.running = false)
    ∧ (gameOverShown s ↔ s.running = false ∧ 0 < s.score)
    ∧ (gameOverShown s → welcomeShown s) := by
  refine ⟨?_, Iff.rfl, Iff.rfl, ?_⟩
  · rintro ⟨hrun, hp⟩
    constructor
    · intro hw
      rw [welcomeShown, hrun] at hw
      cases hw
    · rintro ⟨hw, hsc⟩
      rw [hrun] at hw
      cases hw
  · rintro ⟨hw, hsc⟩
    exact hw

/-- Witness for C6 (amended) at a running paused state. -/
theorem overlay_conditions_witness :
    ¬ welcomeShown { initState 0 with running := true, paused := true }
    ∧ ¬ gameOverShown { initState 0 with running := true, paused := true } :=
  (overlay_conditions { initState 0 with running := true, paused := true }).1 ⟨rfl, rfl⟩

lemma chain_t1 : tick envT1 s1c = s2c := by
  have hm : tickMoved envT1 s1c = [] := by
    norm_num [tickMoved, moveAndExpire, tickSpawned, tickDt, spawnRate, tScore,
      envT1, s1c, startGame, initState]
  show collide envT1 s1c 0 (tickMoved envT1 s1c) (tickAcc envT1 s1c) = s2c
  rw [hm]
  show tickAcc envT1 s1c = s2c
  rw [tickAcc, hm]
  norm_num [tickDt, spawnRate, tScore, envT1, s1c, s2c, startGame, initState]

lemma chain_pl : setPlayerPos (1/2) (1/20) s2c = s2p := by
  norm_num [setPlayerPos, clamp, s2p, s2c, s1c, startGame, initState]

lemma chain_t2_spawn : spawnOrb envT2 s2p = orbG1 := by
  ext <;> norm_num [spawnOrb, speedOf, powerChance, badShare, tScore, envT2, dGoodTop,
    s2p, s2c, s1c, startGame, initState, orbG1] <;> decide

lemma chain_t2 : tick envT2 s2p = s3c := by
  have hcond : envT2.uSpawn < spawnRate s2p.score * tickDt envT2 s2p := by
    norm_num [spawnRate, tScore, tickDt, envT2, s2p, s2c, s1c, startGame, initState]
  have hs : tickSpawned envT2 s2p = [orbG1] := by
    rw [tickSpawned, if_pos hcond, chain_t2_spawn]
    norm_num [s2p, s2c, s1c, startGame, initState]
  have he : tickEffDt envT2 s2p = 1/10 := by
    norm_num [tickEffDt, tickDt, envT2, s2p, s2c, s1c, startGame, initState]
  have hmv : moveOrb envT2 s2p (1/10) orbG1 = orbG2 := by
    ext <;> norm_num [moveOrb, clamp, speedOf, tScore, envT2, s2p, s2c, s1c, startGame,
      initState, orbG1, orbG2] <;> decide
  have hm : tickMoved envT2 s2p = [orbG2] := by
    unfold tickMoved moveAndExpire
    rw [hs, he, List.map_cons, List.map_nil, hmv]
    norm_num [List.filter, envT2, orbG2, orbG1]
  have hacc : tickAcc envT2 s2p =
      { s2p with lastTs := some 100, nextId := 2, orbs := [orbG2] } := by
    rw [tickAcc, hm]
    norm_num [tickDt, spawnRate, tScore, envT2, s2p, s2c, s1c, startGame, initState]
  show collide envT2 s2p 0 (tickMoved envT2 s2p) (tickAcc envT2 s2p) = s3c
  rw [hm, hacc]
  norm_num [collide, hitTest, handleCollect, badgeCheck, badgeStep, milestones,
    collectUpd, mathRound, endGame, envT2, s2p, s2c, s1c, startGame, initState,
    orbG2, orbG1, s3c]
  decide

lemma chain_t3_spawn : spawnOrb envT3 s3c = orbB1 := by
  ext <;> norm_num [spawnOrb, speedOf, powerChance, badShare, tScore, envT3, dBadTop,
    dGoodTop, s3c, s2p, s2c, s1c, startGame, initState, orbB1] <;> decide

lemma chain_t3 : tick envT3 s3c = s4c := by
  have hcond : envT3.uSpawn < spawnRate s3c.score * tickDt envT3 s3c := by
    norm_num [spawnRate, tScore, tickDt, envT3, s3c, s2p, s2c, s1c, startGame, initState]
  have hs : tickSpawned envT3 s3c = [orbB1] := by
    rw [tickSpawned, if_pos hcond, chain_t3_spawn]
    norm_num [s3c, s2p, s2c, s1c, startGame, initState]
  have he : tickEffDt envT3 s3c = 1/10 := by
    norm_num [tickEffDt, tickDt, envT3, s3c, s2p, s2c, s1c, startGame, initState]
  have hmv : moveOrb envT3 s3c (1/10) orbB1 = orbB2 := by
    ext <;> norm_num [moveOrb, clamp, speedOf, tScore, envT3, s3c, s2p, s2c, s1c,
      startGame, initState, orbB1, orbB2] <;> decide
  have hm : tickMoved envT3 s3c = [orbB2] := by
    unfold tickMoved moveAndExpire
    rw [hs, he, List.map_cons, List.map_nil, hmv]
    norm_num [List.filter, envT3, orbB2, orbB1]
  have hacc : tickAcc envT3 s3c =
      { s3c with lastTs := some 200, nextId := 3, orbs := [orbB2] } := by
    rw [tickAcc, hm]
    norm_num [tickDt, spawnRate, tScore, envT3, s3c, s2p, s2c, s1c, startGame, initState]
  show collide envT3 s3c 0 (tickMoved envT3 s3c) (tickAcc envT3 s3c) = s4c
  rw [hm, hacc]
  norm_num [collide, hitTest, endGame, envT3, s3c, s2p, s2c, s1c, startGame, initState,
    orbB2, orbB1, s4c]

lemma chain_t4 : tick envT4 s5c = s6c := by
  have hm : tickMoved envT4 s5c = [] := by
    norm_num [tickMoved, moveAndExpire, tickSpawned, tickDt, spawnRate, tScore,
      envT4, s5c, s4c, s3c, s2p, s2c, s1c, startGame, initState]
  show collide envT4 s5c 0 (tickMoved envT4 s5c) (tickAcc envT4 s5c) = s6c
  rw [hm]
  show tickAcc envT4 s5c = s6c
  rw [tickAcc, hm]
  norm_num [tickDt, spawnRate, tScore, envT4, s6c, s5c, s4c, s3c, s2p, s2c, s1c,
    startGame, initState]

lemma chain_t5_spawn : spawnOrb envT5 s6c = orbB3 := by
  ext <;> norm_num [spawnOrb, speedOf, powerChance, badShare, tScore, envT5, dBadTop,
    dGoodTop, s6c, s5c, s4c, s3c, s2p, s2c, s1c, startGame, initState, orbB3] <;> decide

lemma chain_t5 : tick envT5 s6c = s7c := by
  have hcond : envT5.uSpawn < spawnRate s6c.score * tickDt envT5 s6c := by
    norm_num [spawnRate, tScore, tickDt, envT5, s6c, s5c, s4c, s3c, s2p, s2c, s1c,
      startGame, initState]
  have hs : tickSpawned envT5 s6c = [orbB3] := by
    rw [tickSpawned, if_pos hcond, chain_t5_spawn]
    norm_num [s6c, s5c, s4c, s3c, s2p, s2c, s1c, startGame, initState]
  have he : tickEffDt envT5 s6c = 1/10 := by
    norm_num [tickEffDt, tickDt, envT5, s6c, s5c, s4c, s3c, s2p, s2c, s1c, startGame,
      initState]
  have hmv : moveOrb envT5 s6c (1/10) orbB3 = orbB4 := by
    ext <;> norm_num [moveOrb, clamp, speedOf, tScore, envT5, s6c, s5c, s4c, s3c, s2p,
      s2c, s1c, startGame, initState, orbB3, orbB4] <;> decide
  have hm : tickMoved envT5 s6c = [orbB4] := by
    unfold tickMoved moveAndExpire
    rw [hs, he, List.map_cons, List.map_nil, hmv]
    norm_num [List.filter, envT5, orbB4, orbB3]
  have hacc : tickAcc envT5 s6c =
      { s6c with lastTs := some 100, nextId := 2, orbs := [orbB4] } := by
    rw [tickAcc, hm]
    norm_num [tickDt, spawnRate, tScore, envT5, s6c, s5c, s4c, s3c, s2p, s2c, s1c,
      startGame, initState]
  show collide envT5 s6c 0 (tickMoved envT5 s6c) (tickAcc envT5 s6c) = s7c
  rw [hm, hacc]
  norm_num [collide, hitTest, endGame, envT5, s6c, s5c, s4c, s3c, s2p, s2c, s1c,
    startGame, initState, orbB4, orbB3, s7c]

lemma reach_s4c : Reachable s4c := by
  have h1 : Reachable s1c := Reachable.step (Reachable.init 0) (Step.start (initState 0))
  have h2 : Reachable s2c := chain_t1 ▸ Reachable.step h1 (Step.frame s1c envT1 rfl rfl)
  have h2p : Reachable s2p := chain_pl ▸ Reachable.step h2 (Step.pointer s2c (1/2) (1/20))
  have h3 : Reachable s3c := chain_t2 ▸ Reachable.step h2p (Step.frame s2p envT2 rfl rfl)
  exact chain_t3 ▸ Reachable.step h3 (Step.frame s3c envT3 rfl rfl)

lemma reach_s7c : Reachable s7c := by
  have h5 : Reachable s5c := Reachable.step reach_s4c (Step.start s4c)
  have h6 : Reachable s6c := chain_t4 ▸ Reachable.step h5 (Step.frame s5c envT4 rfl rfl)
  exact chain_t5 ▸ Reachable.step h6 (Step.frame s6c envT5 rfl rfl)

/-- Counterexample to claim C6 as stated: `s4c` is reachable (start a run,
collect one good orb, hit a hazard), the run has ended with score 10 — and
BOTH the game-over overlay (`!running && score > 0`) and the welcome
overlay (`!running`) render conditions hold, so the overlays are not
mutually exclusive, and the welcome screen is not shown only "when no run
has started". -/
theorem overlay_overlap_cex :
    Reachable s4c ∧ welcomeShown s4c ∧ gameOverShown s4c :=
  ⟨reach_s4c, rfl, rfl, by decide⟩

/-- Counterexample to claim C5 as stated: `s7c` is reachable with
persisted best 10 and only the welcome overlay showing; its Reset Best
button is an interface operation that replaces the stored best 10 with 0.
The persisted best is therefore not monotonically non-decreasing. -/
theorem reset_best_decreases_cex :
    Reachable s7c ∧ Step s7c (resetBest s7c)
    ∧ s7c.best = 10 ∧ (resetBest s7c).best = 0
    ∧ (resetBest s7c).best < s7c.best :=
  ⟨reach_s7c, Step.reset s7c rfl, rfl, rfl, by decide⟩
